import Mathlib

/-!
Verification of the control-loop core of `src/firmware/velocidad.c`, a
Raspberry-Pi-Pico firmware that drives a DC motor from either a potentiometer
setpoint or a pulse-derived cruise-control setpoint.

The C code is shallowly embedded: C `float` arithmetic is modelled over `ℚ`
(all quantities appearing in the claims are exactly representable), the
`uint32_t` millisecond clock is modelled as `ℕ` with explicit wraparound
modulo `2 ^ 32`, and the C `(int)` cast of a `float` is modelled as
truncation toward zero.  The global mutable variables of the firmware are
collected in one explicit state record that each cycle of `main`'s loop
transforms.
-/

namespace Velocidad

/-- `#define TARGET_SPEED 20` — RPM corresponding to full duty. -/
def TARGET_SPEED : ℚ := 20

/-- `#define PULSES_PER_REV 3` — sensor pulses per revolution. -/
def PULSES_PER_REV : ℕ := 3

/-- `#define MOTOR_MAX_DUTY_CYCLE 255` — maximum PWM duty level. -/
def MOTOR_MAX_DUTY_CYCLE : ℤ := 255

/-- `#define POT_CHANGE_THRESHOLD 0.5` — pot swing that disengages cruise. -/
def POT_CHANGE_THRESHOLD : ℚ := 1/2

/-- `#define POT_DEAD_ZONE 0.2` — dead zone around zero for the pot. -/
def POT_DEAD_ZONE : ℚ := 1/5

/-- `const int duty_cycle_step = 20` — maximum duty change per call. -/
def duty_cycle_step : ℤ := 20

/-- The firmware's global mutable variables, gathered into one record:
`pulse_count`, `last_pulse_time`, `speed`, `cruise_control_active`,
`current_duty_cycle`, plus the loop-local `last_button_state` and the
global `last_pot_value`. -/
structure LoopState where
  pulse_count : ℕ
  last_pulse_time : ℕ
  speed : ℚ
  cruise_control_active : Bool
  current_duty_cycle : ℤ
  last_button_state : Bool
  last_pot_value : ℚ
deriving DecidableEq

/-- State at power-on: all counters zero, `speed = 0.0`,
`cruise_control_active = false`, `current_duty_cycle = 0`,
`bool last_button_state = true`, `last_pot_value = 0`. -/
def initState : LoopState :=
  { pulse_count := 0
    last_pulse_time := 0
    speed := 0
    cruise_control_active := false
    current_duty_cycle := 0
    last_button_state := true
    last_pot_value := 0 }

/-- `uint32_t` subtraction `current_time - last_pulse_time` of the
millisecond clock, i.e. the difference modulo `2 ^ 32`. -/
def elapsedMs (current_time last_time : ℕ) : ℕ :=
  (current_time + (2 ^ 32 - last_time % 2 ^ 32)) % 2 ^ 32

/-- `calculate_speed()`: if at least `PULSES_PER_REV` pulses accumulated,
compute `time_per_rev = (current_time - last_pulse_time) / 1000.0`, set
`speed = 60.0 / time_per_rev`, record the timestamp and clear the pulse
accumulator; otherwise do nothing.  `current_time` is the value the call
reads from `to_ms_since_boot(get_absolute_time())`. -/
def calculate_speed (st : LoopState) (current_time : ℕ) : LoopState :=
  if st.pulse_count ≥ PULSES_PER_REV then
    { st with
        speed := 60 / ((elapsedMs current_time st.last_pulse_time : ℚ) / 1000)
        last_pulse_time := current_time
        pulse_count := 0 }
  else st

/-- C cast `(int)x` of a float: truncation toward zero. -/
def truncToZero (x : ℚ) : ℤ :=
  if 0 ≤ x then ⌊x⌋ else -⌊-x⌋

/-- `if (target_duty_cycle > MOTOR_MAX_DUTY_CYCLE) target_duty_cycle = MOTOR_MAX_DUTY_CYCLE;` -/
def clampHigh (t : ℤ) : ℤ :=
  if t > MOTOR_MAX_DUTY_CYCLE then MOTOR_MAX_DUTY_CYCLE else t

/-- `if (target_duty_cycle < 0) target_duty_cycle = 0;` -/
def clampLow (t : ℤ) : ℤ :=
  if t < 0 then 0 else t

/-- `if (target_duty_cycle < 1) { target_duty_cycle = 0; }` -/
def snapZero (t : ℤ) : ℤ :=
  if t < 1 then 0 else t

/-- The target-duty computation at the head of `set_motor_speed`:
`(int)((target_speed / TARGET_SPEED) * MOTOR_MAX_DUTY_CYCLE)` followed by
the high clamp, the low clamp and the snap-to-zero. -/
def targetDuty (target_speed : ℚ) : ℤ :=
  snapZero (clampLow (clampHigh
    (truncToZero (target_speed / TARGET_SPEED * (MOTOR_MAX_DUTY_CYCLE : ℚ)))))

/-- `set_motor_speed(target_speed)` restricted to its state effect: the new
`current_duty_cycle` after the slew-limited move toward the target duty. -/
def set_motor_speed (target_speed : ℚ) (current_duty_cycle : ℤ) : ℤ :=
  if current_duty_cycle < targetDuty target_speed then
    if current_duty_cycle + duty_cycle_step > targetDuty target_speed then
      targetDuty target_speed
    else current_duty_cycle + duty_cycle_step
  else if current_duty_cycle > targetDuty target_speed then
    if current_duty_cycle - duty_cycle_step < targetDuty target_speed then
      targetDuty target_speed
    else current_duty_cycle - duty_cycle_step
  else current_duty_cycle

/-- `read_potentiometer()` as a function of the raw ADC sample:
`pot_value = (raw_value / 4095.0) * TARGET_SPEED`, forced to `0.0` when
`fabs(pot_value) < POT_DEAD_ZONE`. -/
def read_potentiometer (raw_value : ℕ) : ℚ :=
  if |(raw_value : ℚ) / 4095 * TARGET_SPEED| < POT_DEAD_ZONE then 0
  else (raw_value : ℚ) / 4095 * TARGET_SPEED

/-- The button-edge handling of `main`'s loop:
`if (!current_button_state && last_button_state) cruise_control_active = !cruise_control_active;` -/
def cruiseAfterButton (cruise last_button current_button : Bool) : Bool :=
  if !current_button && last_button then !cruise else cruise

/-- The pot-drift handling of `main`'s loop:
`if (cruise_control_active && fabs(current_pot_value - last_pot_value) > POT_CHANGE_THRESHOLD) cruise_control_active = false;` -/
def cruiseAfterDrift (cruise : Bool) (current_pot last_pot : ℚ) : Bool :=
  if cruise ∧ |current_pot - last_pot| > POT_CHANGE_THRESHOLD then false
  else cruise

/-- One iteration of the `while (true)` loop in `main`, as a function of the
inputs the iteration reads from hardware: the millisecond clock value, the
button level from `gpio_get(BUTTON_PIN)` (active low, pulled up), and the raw
ADC sample consumed by `read_potentiometer`.  In source order: speed
estimation, button edge toggle, potentiometer read, drift disengage, then the
motor command from the selected setpoint. -/
def mainStep (st : LoopState) (current_time : ℕ) (current_button_state : Bool)
    (raw_value : ℕ) : LoopState :=
  let st1 := calculate_speed st current_time
  let cruise1 := cruiseAfterButton st1.cruise_control_active st1.last_button_state
    current_button_state
  let current_pot_value := read_potentiometer raw_value
  let cruise2 := cruiseAfterDrift cruise1 current_pot_value st1.last_pot_value
  { st1 with
      cruise_control_active := cruise2
      last_button_state := current_button_state
      last_pot_value := current_pot_value
      current_duty_cycle := set_motor_speed
        (if cruise2 then st1.speed else current_pot_value)
        st1.current_duty_cycle }

/-- `calculate_speed` never touches the cruise flag. -/
lemma calculate_speed_cruise (st : LoopState) (t : ℕ) :
    (calculate_speed st t).cruise_control_active = st.cruise_control_active := by
  unfold calculate_speed; split <;> rfl

/-- `calculate_speed` never touches the stored button level. -/
lemma calculate_speed_button (st : LoopState) (t : ℕ) :
    (calculate_speed st t).last_button_state = st.last_button_state := by
  unfold calculate_speed; split <;> rfl

/-- `calculate_speed` never touches the stored pot value. -/
lemma calculate_speed_pot (st : LoopState) (t : ℕ) :
    (calculate_speed st t).last_pot_value = st.last_pot_value := by
  unfold calculate_speed; split <;> rfl

/-- The cruise flag after a full loop iteration is the drift phase applied to
the button phase. -/
lemma mainStep_cruise (st : LoopState) (t : ℕ) (b : Bool) (raw : ℕ) :
    (mainStep st t b raw).cruise_control_active =
      cruiseAfterDrift
        (cruiseAfterButton (calculate_speed st t).cruise_control_active
          (calculate_speed st t).last_button_state b)
        (read_potentiometer raw) (calculate_speed st t).last_pot_value := rfl

/-- The target duty is clamped into `[0, 255]` whatever the input speed. -/
lemma targetDuty_bounds (s : ℚ) :
    0 ≤ targetDuty s ∧ targetDuty s ≤ 255 := by
  unfold targetDuty snapZero clampLow clampHigh MOTOR_MAX_DUTY_CYCLE
  split_ifs <;> omega

/-- C1: the motor command's duty level stays within `[0, MOTOR_MAX_DUTY_CYCLE]`
and changes by at most `duty_cycle_step` per call to `set_motor_speed`, for
every input target speed; the power-on duty is inside the range, so the bound
holds at every cycle. -/
theorem motor_duty_invariant (s : ℚ) (c : ℤ) (h0 : 0 ≤ c) (h1 : c ≤ 255) :
    (0 ≤ set_motor_speed s c ∧ set_motor_speed s c ≤ 255 ∧
      |set_motor_speed s c - c| ≤ duty_cycle_step) ∧
    initState.current_duty_cycle = 0 := by
  obtain ⟨ht0, ht1⟩ := targetDuty_bounds s
  refine ⟨?_, rfl⟩
  unfold set_motor_speed duty_cycle_step
  split_ifs <;>
    exact ⟨by omega, by omega, by rw [abs_le]; constructor <;> omega⟩

/-- Witness for C1 at target speed `10` RPM and current duty `0`. -/
theorem motor_duty_invariant_witness :
    0 ≤ (0 : ℤ) ∧ (0 : ℤ) ≤ 255 ∧
      (0 ≤ set_motor_speed 10 0 ∧ set_motor_speed 10 0 ≤ 255 ∧
        |set_motor_speed 10 0 - 0| ≤ duty_cycle_step) :=
  ⟨le_refl 0, by norm_num, (motor_duty_invariant 10 0 (le_refl 0) (by norm_num)).1⟩

/-- C4: with fewer than `PULSES_PER_REV` accumulated pulses,
`calculate_speed` changes nothing at all: the stored speed, the last sample
timestamp and the pulse accumulator are untouched. -/
theorem calculate_speed_below_threshold (st : LoopState) (t : ℕ)
    (h : st.pulse_count < PULSES_PER_REV) :
    calculate_speed st t = st := by
  have hn : ¬ st.pulse_count ≥ PULSES_PER_REV := by omega
  simp [calculate_speed, hn]

/-- Witness for C4 at two accumulated pulses. -/
theorem calculate_speed_below_threshold_witness :
    (2 : ℕ) < PULSES_PER_REV ∧
      calculate_speed ⟨2, 0, 0, false, 0, true, 0⟩ 5 = ⟨2, 0, 0, false, 0, true, 0⟩ :=
  ⟨by decide, calculate_speed_below_threshold ⟨2, 0, 0, false, 0, true, 0⟩ 5 (by decide)⟩

/-- C5: once the pulse threshold is reached with positive elapsed time, the
computed speed is exactly `60 / elapsed_seconds` RPM, the pulse accumulator is
reset to zero and the sample timestamp is updated to the current time. -/
theorem calculate_speed_formula (st : LoopState) (t : ℕ)
    (h1 : st.pulse_count ≥ PULSES_PER_REV)
    (_h2 : 0 < elapsedMs t st.last_pulse_time) :
    (calculate_speed st t).speed =
        60 / ((elapsedMs t st.last_pulse_time : ℚ) / 1000) ∧
      (calculate_speed st t).pulse_count = 0 ∧
      (calculate_speed st t).last_pulse_time = t := by
  simp [calculate_speed, h1]

/-- Witness for C5, instantiating Scenario A: three pulses over 1500 ms give
`60 / 1.5 = 40` RPM. -/
theorem calculate_speed_formula_witness :
    (3 : ℕ) ≥ PULSES_PER_REV ∧ 0 < elapsedMs 1500 0 ∧
      (calculate_speed ⟨3, 0, 0, false, 0, true, 0⟩ 1500).speed = 40 := by
  refine ⟨by decide, by decide, ?_⟩
  have h :=
    (calculate_speed_formula ⟨3, 0, 0, false, 0, true, 0⟩ 1500 (by decide) (by decide)).1
  rw [h]
  norm_num [elapsedMs]

/-- C6 (code side): `calculate_speed` has no guard on the elapsed time.  When
the threshold is met and the clock has not advanced since the last sample, the
elapsed time is `0` ms, yet the computing branch still runs: the accumulator is
reset, the timestamp is rewritten, and `speed` is overwritten with the result
of dividing `60` by the zero elapsed-seconds value — in the C float semantics
`60.0 / 0.0 = +inf`, which is then fed to `set_motor_speed` whenever cruise is
active. -/
theorem calculate_speed_unguarded_zero_elapsed (st : LoopState)
    (h : st.pulse_count ≥ PULSES_PER_REV) :
    elapsedMs st.last_pulse_time st.last_pulse_time = 0 ∧
      (calculate_speed st st.last_pulse_time).pulse_count = 0 ∧
      (calculate_speed st st.last_pulse_time).last_pulse_time = st.last_pulse_time ∧
      (calculate_speed st st.last_pulse_time).speed =
        60 / ((elapsedMs st.last_pulse_time st.last_pulse_time : ℚ) / 1000) := by
  have he : elapsedMs st.last_pulse_time st.last_pulse_time = 0 := by
    unfold elapsedMs
    omega
  exact ⟨he, by simp [calculate_speed, h], by simp [calculate_speed, h],
    by simp [calculate_speed, h]⟩

/-- Witness for C6: threshold met at the very timestamp of the previous
sample. -/
theorem calculate_speed_unguarded_zero_elapsed_witness :
    (3 : ℕ) ≥ PULSES_PER_REV ∧
      elapsedMs 7 7 = 0 ∧
      (calculate_speed ⟨3, 7, 5, false, 0, true, 0⟩ 7).pulse_count = 0 :=
  ⟨by decide,
    (calculate_speed_unguarded_zero_elapsed ⟨3, 7, 5, false, 0, true, 0⟩ (by decide)).1,
    (calculate_speed_unguarded_zero_elapsed ⟨3, 7, 5, false, 0, true, 0⟩ (by decide)).2.1⟩

/-- C2: whenever cruise is engaged after the button phase of a cycle —
including a state just toggled by a button edge that same cycle — and the pot
setpoint moved by more than `POT_CHANGE_THRESHOLD` since the previous cycle,
the cycle ends with cruise disengaged, for every button input. -/
theorem cruise_drift_disengages (st : LoopState) (t : ℕ) (b : Bool) (raw : ℕ)
    (hEng : cruiseAfterButton st.cruise_control_active st.last_button_state b = true)
    (hDrift : |read_potentiometer raw - st.last_pot_value| > POT_CHANGE_THRESHOLD) :
    (mainStep st t b raw).cruise_control_active = false := by
  rw [mainStep_cruise, calculate_speed_cruise, calculate_speed_button,
    calculate_speed_pot, hEng]
  simp [cruiseAfterDrift, hDrift]

/-- Witness for C2: cruise engaged, button held high (no edge), pot jumps from
`0` to about `4.88`, and the cycle disengages cruise. -/
theorem cruise_drift_disengages_witness :
    cruiseAfterButton true true true = true ∧
      |read_potentiometer 1000 - (0 : ℚ)| > POT_CHANGE_THRESHOLD ∧
      (mainStep ⟨0, 0, 0, true, 0, true, 0⟩ 0 true 1000).cruise_control_active = false := by
  have h1 : cruiseAfterButton true true true = true := by decide
  have h2 : |read_potentiometer 1000 - (0 : ℚ)| > POT_CHANGE_THRESHOLD := by
    norm_num [read_potentiometer, TARGET_SPEED, POT_DEAD_ZONE, POT_CHANGE_THRESHOLD,
      abs_of_nonneg]
  exact ⟨h1, h2, cruise_drift_disengages ⟨0, 0, 0, true, 0, true, 0⟩ 0 true 1000 h1 h2⟩

/-- C3: the only way a cycle can take cruise from disengaged to engaged is a
falling button edge: the stored previous level was not-pressed (`true`, active
low) and the current level is pressed (`false`).  In particular no rising
edge, no held button and no pot-drift condition ever re-engages cruise. -/
theorem cruise_engage_only_on_falling_edge (st : LoopState) (t : ℕ) (b : Bool)
    (raw : ℕ) (hDis : st.cruise_control_active = false)
    (hEng : (mainStep st t b raw).cruise_control_active = true) :
    b = false ∧ st.last_button_state = true := by
  rw [mainStep_cruise, calculate_speed_cruise, calculate_speed_button,
    calculate_speed_pot, hDis] at hEng
  cases b <;> cases hlb : st.last_button_state <;>
    simp_all [cruiseAfterButton, cruiseAfterDrift]

/-- Witness for C3: from disengaged state with previous level not-pressed, a
pressed reading engages cruise and exhibits exactly the falling edge. -/
theorem cruise_engage_only_on_falling_edge_witness :
    (⟨0, 0, 0, false, 0, true, 0⟩ : LoopState).cruise_control_active = false ∧
      (mainStep ⟨0, 0, 0, false, 0, true, 0⟩ 0 false 0).cruise_control_active = true ∧
      (false = false ∧ (⟨0, 0, 0, false, 0, true, 0⟩ : LoopState).last_button_state = true) := by
  have hEng : (mainStep ⟨0, 0, 0, false, 0, true, 0⟩ 0 false 0).cruise_control_active = true := by
    rw [mainStep_cruise]
    norm_num [calculate_speed, PULSES_PER_REV, cruiseAfterButton, cruiseAfterDrift,
      read_potentiometer, TARGET_SPEED, POT_DEAD_ZONE, POT_CHANGE_THRESHOLD]
  exact ⟨rfl, hEng,
    cruise_engage_only_on_falling_edge ⟨0, 0, 0, false, 0, true, 0⟩ 0 false 0 rfl hEng⟩

/-- C7: for every raw ADC sample in the device range `0..4095`, the
potentiometer reading is `0` exactly when the scaled value
`raw / 4095 × TARGET_SPEED` has magnitude below `POT_DEAD_ZONE`, and is
otherwise the linear scaling itself, which lies in `[0, TARGET_SPEED]`. -/
theorem read_potentiometer_spec (raw : ℕ) (hr : raw ≤ 4095) :
    (|(raw : ℚ) / 4095 * TARGET_SPEED| < POT_DEAD_ZONE →
      read_potentiometer raw = 0) ∧
    (¬ |(raw : ℚ) / 4095 * TARGET_SPEED| < POT_DEAD_ZONE →
      read_potentiometer raw = (raw : ℚ) / 4095 * TARGET_SPEED ∧
        0 ≤ (raw : ℚ) / 4095 * TARGET_SPEED ∧
        (raw : ℚ) / 4095 * TARGET_SPEED ≤ TARGET_SPEED) := by
  constructor
  · intro h
    simp [read_potentiometer, h]
  · intro h
    refine ⟨by simp [read_potentiometer, h], ?_, ?_⟩
    · unfold TARGET_SPEED
      positivity
    · have hc : (raw : ℚ) ≤ 4095 := by exact_mod_cast hr
      unfold TARGET_SPEED
      rw [div_mul_eq_mul_div, div_le_iff₀ (by norm_num)]
      linarith

/-- Witness for C7 at raw sample `1000`, outside the dead zone. -/
theorem read_potentiometer_spec_witness :
    (1000 : ℕ) ≤ 4095 ∧
      read_potentiometer 1000 = (1000 : ℚ) / 4095 * TARGET_SPEED :=
  ⟨by norm_num,
    ((read_potentiometer_spec 1000 (by norm_num)).2
      (by norm_num [TARGET_SPEED, POT_DEAD_ZONE, abs_of_nonneg])).1⟩

/-- The clamp-and-snap chain sends any value below one duty unit to `0`. -/
lemma snapChain_zero {x : ℚ} (hx : x < 1) :
    snapZero (clampLow (clampHigh (truncToZero x))) = 0 := by
  rcases le_or_lt 0 x with h0 | h0
  · have ht : truncToZero x = ⌊x⌋ := if_pos h0
    have hfl : (⌊x⌋ : ℚ) ≤ x := Int.floor_le x
    have h1 : ⌊x⌋ < 1 := by exact_mod_cast lt_of_le_of_lt hfl hx
    have h2 : 0 ≤ ⌊x⌋ := Int.floor_nonneg.mpr h0
    rw [ht]
    unfold snapZero clampLow clampHigh MOTOR_MAX_DUTY_CYCLE
    split_ifs <;> omega
  · have ht : truncToZero x = -⌊-x⌋ := if_neg (not_le.mpr h0)
    have h2 : 0 ≤ ⌊-x⌋ := Int.floor_nonneg.mpr (by linarith)
    rw [ht]
    unfold snapZero clampLow clampHigh MOTOR_MAX_DUTY_CYCLE
    split_ifs <;> omega

/-- The clamp-and-snap chain is the identity on truncated values already in
`[1, 255]`. -/
lemma snapChain_id {x : ℚ} (h1 : 1 ≤ x) (h2 : x ≤ 255) :
    snapZero (clampLow (clampHigh (truncToZero x))) = truncToZero x := by
  have h0 : (0 : ℚ) ≤ x := le_trans zero_le_one h1
  have ht : truncToZero x = ⌊x⌋ := if_pos h0
  have hl : (1 : ℤ) ≤ ⌊x⌋ := Int.le_floor.mpr (by exact_mod_cast h1)
  have hu : ⌊x⌋ ≤ 255 := by
    have hfl : (⌊x⌋ : ℚ) ≤ x := Int.floor_le x
    exact_mod_cast le_trans hfl h2
  rw [ht]
  unfold snapZero clampLow clampHigh MOTOR_MAX_DUTY_CYCLE
  split_ifs <;> omega

/-- C8: the motor command generator computes
`target = (input_speed / TARGET_SPEED) × MOTOR_MAX_DUTY_CYCLE` truncated and
clamped to `[0, 255]`, snapping any sub-unit target to exactly `0`; in
Scenario D the computed target `0.4` becomes `0` and the current duty then
ramps down by `duty_cycle_step` per cycle (never below `0`) until it reaches
`0` after finitely many cycles. -/
theorem duty_target_snap_and_ramp :
    (∀ s : ℚ, 1 ≤ s / TARGET_SPEED * (MOTOR_MAX_DUTY_CYCLE : ℚ) →
      s / TARGET_SPEED * (MOTOR_MAX_DUTY_CYCLE : ℚ) ≤ 255 →
      targetDuty s = truncToZero (s / TARGET_SPEED * (MOTOR_MAX_DUTY_CYCLE : ℚ))) ∧
    (∀ s : ℚ, 0 ≤ targetDuty s ∧ targetDuty s ≤ MOTOR_MAX_DUTY_CYCLE) ∧
    (∀ s : ℚ, s / TARGET_SPEED * (MOTOR_MAX_DUTY_CYCLE : ℚ) < 1 → targetDuty s = 0) ∧
    ((8 / 255 : ℚ) / TARGET_SPEED * (MOTOR_MAX_DUTY_CYCLE : ℚ) = 2 / 5 ∧
      targetDuty (8 / 255) = 0) ∧
    (∀ c : ℤ, 0 < c →
      set_motor_speed (8 / 255) c = max (c - duty_cycle_step) 0) ∧
    (∀ n : ℕ, ∀ c : ℤ, 0 ≤ c → c ≤ duty_cycle_step * (n : ℤ) →
      (fun d => set_motor_speed (8 / 255) d)^[n] c = 0) := by
  have hstep20 : duty_cycle_step = 20 := rfl
  have htd : targetDuty (8 / 255) = 0 := by
    unfold targetDuty
    exact snapChain_zero (by norm_num [TARGET_SPEED, MOTOR_MAX_DUTY_CYCLE])
  have hstep : ∀ c : ℤ, 0 < c →
      set_motor_speed (8 / 255) c = max (c - duty_cycle_step) 0 := by
    intro c hc
    unfold set_motor_speed duty_cycle_step
    rw [htd, max_def]
    split_ifs <;> omega
  have hiter : ∀ n : ℕ, ∀ c : ℤ, 0 ≤ c → c ≤ duty_cycle_step * (n : ℤ) →
      (fun d => set_motor_speed (8 / 255) d)^[n] c = 0 := by
    intro n
    induction n with
    | zero =>
      intro c h0 hle
      rw [hstep20] at hle
      simp only [Function.iterate_zero, id_eq]
      omega
    | succ n ih =>
      intro c h0 hle
      rw [hstep20] at hle
      rw [Function.iterate_succ_apply]
      show (fun d => set_motor_speed (8 / 255) d)^[n] (set_motor_speed (8 / 255) c) = 0
      rcases eq_or_lt_of_le h0 with h | h
      · have f0 : set_motor_speed (8 / 255) 0 = 0 := by
          unfold set_motor_speed
          rw [htd]
          norm_num
        rw [← h, f0]
        exact ih 0 le_rfl (by rw [hstep20]; omega)
      · rw [hstep c h]
        refine ih _ (le_max_right _ _) ?_
        rw [hstep20, max_def]
        split_ifs <;> omega
  refine ⟨?_, fun s => targetDuty_bounds s, ?_, ⟨?_, htd⟩, hstep, hiter⟩
  · intro s h1 h2
    unfold targetDuty
    exact snapChain_id h1 h2
  · intro s hx
    unfold targetDuty
    exact snapChain_zero hx
  · norm_num [TARGET_SPEED, MOTOR_MAX_DUTY_CYCLE]

/-- Witness for C8: a duty of `50` ramps to `0` in three cycles under the
snapped-to-zero target of Scenario D. -/
theorem duty_target_snap_and_ramp_witness :
    (0 : ℤ) ≤ 50 ∧ (50 : ℤ) ≤ duty_cycle_step * ((3 : ℕ) : ℤ) ∧
      (fun d => set_motor_speed ((8 : ℚ) / 255) d)^[3] 50 = 0 :=
  ⟨by norm_num, by norm_num [duty_cycle_step],
    duty_target_snap_and_ramp.2.2.2.2.2 3 50 (by norm_num)
      (by norm_num [duty_cycle_step])⟩

/-- C10: at power-on the stored button level is `true` (not pressed, active
low) and cruise is disengaged, so a button already held pressed during the
very first loop iteration is seen as a falling edge and engages cruise in
that iteration, with no prior observed release. -/
theorem first_cycle_press_engages :
    initState.last_button_state = true ∧
      initState.cruise_control_active = false ∧
      (mainStep initState 0 false 0).cruise_control_active = true := by
  refine ⟨rfl, rfl, ?_⟩
  rw [mainStep_cruise]
  norm_num [calculate_speed, PULSES_PER_REV, initState, cruiseAfterButton,
    cruiseAfterDrift, read_potentiometer, TARGET_SPEED, POT_DEAD_ZONE,
    POT_CHANGE_THRESHOLD]

end Velocidad
